import Mathlib

/-!
Shallow embedding of `globus_sdk/search/client.py` (`SearchClient`), the
single source file of this repository, together with the collaborator
helpers it uses from `globus_sdk.base` (`merge_params`, `safe_stringify`,
`BaseClient.qjoin_path`, the HTTP verb methods and error translation),
which are not part of the source tree and are therefore modelled from the
specification.

Each public method of `SearchClient` is embedded as a pure request-builder
mapping its arguments to the HTTP request (verb, path, query parameters,
optional JSON body) handed to the transport collaborator.
-/

set_option autoImplicit false

namespace GlobusSearch

/-- A query-parameter value as sent to the transport: string, integer or
boolean (the values the `SearchClient` methods actually pass). -/
inductive PValue where
  | str (s : String)
  | int (n : Int)
  | bool (b : Bool)
  deriving DecidableEq, Repr

/-- A query-parameter mapping, in insertion order (Python `dict` of keyword
arguments). -/
abbrev Params := List (String × PValue)

/-- Whether the mapping binds key `k`. -/
def hasKey (ps : Params) (k : String) : Bool :=
  ps.any (fun p => p.1 == k)

/-- First binding of key `k` (Python `dict` lookup: with `setParam`
maintaining key-uniqueness this is the binding). -/
def getParam (ps : Params) (k : String) : Option PValue :=
  (ps.find? (fun p => p.1 == k)).map (·.2)

/-- Python `dict` assignment `ps[k] = v`: replace an existing binding of
`k`, else append a new one. -/
def setParam (ps : Params) (k : String) (v : PValue) : Params :=
  if hasKey ps k then ps.map (fun p => if p.1 == k then (k, v) else p)
  else ps ++ [(k, v)]

/-- Modelled from the spec: `merge_params` from `globus_sdk.base` (not in
the source tree). Operation-specific named parameters are merged into the
caller-supplied parameter mapping; any parameter whose value is absent
(unset, i.e. `None`) is dropped before transmission. Returns the merged
mapping. -/
def merge_params (base : Params) (more : List (String × Option PValue)) : Params :=
  more.foldl
    (fun acc kv => match kv.2 with
      | none => acc
      | some v => setParam acc kv.1 v)
    base

/-- Modelled from the spec: `safe_stringify` from `globus_sdk.base` (not in
the source tree) coerces an identifier to its string form; on a value
already in string form it is the identity. -/
def safe_stringify (s : String) : String := s

/-- Strip leading and trailing separator characters from a path part. -/
def trimSepList (l : List Char) : List Char :=
  ((l.dropWhile (fun c => c == '/')).reverse.dropWhile (fun c => c == '/')).reverse

/-- String form of `trimSepList`. -/
def trimSep (s : String) : String := String.mk (trimSepList s.toList)

/-- Modelled from the spec: `BaseClient.qjoin_path` (not in the source
tree). Path segments are joined with a single separator after trimming,
producing exactly one instance of the separator between segments; no
escaping is performed at this level. -/
def qjoin_path (parts : List String) : String :=
  parts.foldl (fun acc p => acc ++ "/" ++ trimSep p) ""

/-- HTTP verbs used by the client. -/
inductive Verb where
  | GET
  | POST
  | PUT
  | DELETE
  deriving DecidableEq, Repr

/-- A JSON value (request/response payloads are pass-through JSON). -/
inductive JValue where
  | null
  | bool (b : Bool)
  | num (n : Int)
  | str (s : String)
  | arr (elts : List JValue)
  | obj (fields : List (String × JValue))

/-- The request handed to the HTTP transport collaborator: verb, path,
query-parameter mapping and optional JSON body. -/
structure Request where
  verb : Verb
  path : String
  params : Params
  body : Option JValue

-- Basic lemmas about the parameter mapping.

theorem any_map_setFun (k k' : String) (v : PValue) (hne : k ≠ k') :
    ∀ l : Params,
      ((l.map (fun p => if p.1 == k then (k, v) else p)).any (fun p => p.1 == k')) =
        l.any (fun p => p.1 == k')
  | [] => rfl
  | p :: rest => by
    have ih := any_map_setFun k k' v hne rest
    by_cases hpk : p.1 = k
    · simp only [List.map_cons, List.any_cons, ih]
      rw [if_pos (by simpa using hpk)]
      have h1 : ((k, v).1 == k') = false := by simpa using hne
      have h2 : (p.1 == k') = false := by rw [hpk]; simpa using hne
      rw [h1, h2]
    · simp only [List.map_cons, List.any_cons, ih]
      rw [if_neg (by simpa using hpk)]

theorem find?_map_setFun_self (k : String) (v : PValue) :
    ∀ l : Params, l.any (fun p => p.1 == k) = true →
      ((l.map (fun p => if p.1 == k then (k, v) else p)).find? (fun p => p.1 == k)) =
        some (k, v)
  | [], h => by simp at h
  | p :: rest, h => by
    by_cases hpk : p.1 = k
    · simp only [List.map_cons]
      rw [if_pos (by simpa using hpk)]
      exact List.find?_cons_of_pos _ (by simp)
    · have hrest : rest.any (fun p => p.1 == k) = true := by
        simpa [hpk] using h
      simp only [List.map_cons]
      rw [if_neg (by simpa using hpk)]
      rw [List.find?_cons_of_neg _ (by simpa using hpk)]
      exact find?_map_setFun_self k v rest hrest

theorem find?_append_single (k : String) (v : PValue) :
    ∀ l : Params, l.any (fun p => p.1 == k) = false →
      ((l ++ [(k, v)]).find? (fun p => p.1 == k)) = some (k, v)
  | [], _ => by simp
  | p :: rest, h => by
    by_cases hpk : p.1 = k
    · simp [hpk] at h
    · have hrest : rest.any (fun p => p.1 == k) = false := by
        simpa [hpk] using h
      rw [List.cons_append, List.find?_cons_of_neg _ (by simpa using hpk)]
      exact find?_append_single k v rest hrest

theorem find?_map_setFun_of_ne (k k' : String) (v : PValue) (hne : k' ≠ k) :
    ∀ l : Params,
      ((l.map (fun p => if p.1 == k' then (k', v) else p)).find? (fun p => p.1 == k)) =
        l.find? (fun p => p.1 == k)
  | [] => rfl
  | p :: rest => by
    by_cases hpk' : p.1 = k'
    · simp only [List.map_cons]
      rw [if_pos (by simpa using hpk')]
      rw [List.find?_cons_of_neg _ (by simpa using hne),
          List.find?_cons_of_neg _ (by rw [hpk']; simpa using hne)]
      exact find?_map_setFun_of_ne k k' v hne rest
    · simp only [List.map_cons]
      rw [if_neg (by simpa using hpk')]
      by_cases hpk : p.1 = k
      · rw [List.find?_cons_of_pos _ (by simpa using hpk),
            List.find?_cons_of_pos _ (by simpa using hpk)]
      · rw [List.find?_cons_of_neg _ (by simpa using hpk),
            List.find?_cons_of_neg _ (by simpa using hpk)]
        exact find?_map_setFun_of_ne k k' v hne rest

theorem find?_append_single_of_ne (k k' : String) (v : PValue) (hne : k' ≠ k) :
    ∀ l : Params,
      ((l ++ [(k', v)]).find? (fun p => p.1 == k)) = l.find? (fun p => p.1 == k)
  | [] => by simp [hne]
  | p :: rest => by
    by_cases hpk : p.1 = k
    · rw [List.cons_append, List.find?_cons_of_pos _ (by simpa using hpk),
          List.find?_cons_of_pos _ (by simpa using hpk)]
    · rw [List.cons_append, List.find?_cons_of_neg _ (by simpa using hpk),
          List.find?_cons_of_neg _ (by simpa using hpk)]
      exact find?_append_single_of_ne k k' v hne rest

theorem getParam_setParam (ps : Params) (k : String) (v : PValue) :
    getParam (setParam ps k v) k = some v := by
  unfold setParam getParam
  split
  · rename_i h
    rw [find?_map_setFun_self k v ps h]
    rfl
  · rename_i h
    have h' : ps.any (fun p => p.1 == k) = false := by
      cases hb : ps.any (fun p => p.1 == k) with
      | false => rfl
      | true => exact absurd hb h
    rw [find?_append_single k v ps h']
    rfl

theorem hasKey_setParam_of_ne (ps : Params) (k k' : String) (v : PValue)
    (hne : k ≠ k') :
    hasKey (setParam ps k v) k' = hasKey ps k' := by
  unfold setParam hasKey
  split
  · exact any_map_setFun k k' v hne ps
  · simp [hne]

theorem getParam_setParam_of_ne (ps : Params) (k k' : String) (v : PValue)
    (hne : k' ≠ k) :
    getParam (setParam ps k' v) k = getParam ps k := by
  unfold setParam getParam
  split
  · rw [find?_map_setFun_of_ne k k' v hne ps]
  · rw [find?_append_single_of_ne k k' v hne ps]

/-!
Request builders: one per public method of `SearchClient`
(`src/globus_sdk/search/client.py`). Each mirrors its method body:
stringify the index identifier, merge operation-specific named parameters
into the caller-supplied `**params` mapping, join the path parts with
`qjoin_path`, and delegate to the verb method of the base client with the
resulting path, parameters and body.
-/

namespace SearchClient

/-- Method `get_index`: `GET /v1/index/<index_id>` with pass-through params. -/
def get_index (index_id : String) (params : Params) : Request :=
  { verb := .GET
    path := qjoin_path ["v1/index", safe_stringify index_id]
    params := params
    body := none }

/-- Method `search`: `GET /v1/index/<index_id>/search`; merges `q`, `offset`
(Python default 0), `limit` (default 10), `query_template` (default
`None`), `advanced` (default `False`) into `params`. -/
def search (index_id q : String) (offset limit : Int)
    (query_template : Option String) (advanced : Bool)
    (params : Params) : Request :=
  { verb := .GET
    path := qjoin_path ["v1/index", safe_stringify index_id, "search"]
    params := merge_params params
      [("q", some (.str q)), ("offset", some (.int offset)),
       ("limit", some (.int limit)),
       ("query_template", query_template.map PValue.str),
       ("advanced", some (.bool advanced))]
    body := none }

/-- Method `post_search`: `POST /v1/index/<index_id>/search` with a JSON body. -/
def post_search (index_id : String) (data : JValue) : Request :=
  { verb := .POST
    path := qjoin_path ["v1/index", safe_stringify index_id, "search"]
    params := []
    body := some data }

/-- Method `ingest`: `POST /v1/index/<index_id>/ingest` with a JSON body. -/
def ingest (index_id : String) (data : JValue) : Request :=
  { verb := .POST
    path := qjoin_path ["v1/index", safe_stringify index_id, "ingest"]
    params := []
    body := some data }

/-- Method `delete_by_query`: `POST /v1/index/<index_id>/delete_by_query`. -/
def delete_by_query (index_id : String) (data : JValue) : Request :=
  { verb := .POST
    path := qjoin_path ["v1/index", safe_stringify index_id, "delete_by_query"]
    params := []
    body := some data }

/-- Method `get_subject`: `GET /v1/index/<index_id>/subject`; merges `subject`. -/
def get_subject (index_id subject : String) (params : Params) : Request :=
  { verb := .GET
    path := qjoin_path ["v1/index", safe_stringify index_id, "subject"]
    params := merge_params params [("subject", some (.str subject))]
    body := none }

/-- Method `delete_subject`: `DELETE /v1/index/<index_id>/subject`; merges
`subject`. -/
def delete_subject (index_id subject : String) (params : Params) : Request :=
  { verb := .DELETE
    path := qjoin_path ["v1/index", safe_stringify index_id, "subject"]
    params := merge_params params [("subject", some (.str subject))]
    body := none }

/-- Method `get_entry`: `GET /v1/index/<index_id>/entry`; merges `subject` and
optional `entry_id` (Python default `None`). -/
def get_entry (index_id subject : String) (entry_id : Option String)
    (params : Params) : Request :=
  { verb := .GET
    path := qjoin_path ["v1/index", safe_stringify index_id, "entry"]
    params := merge_params params
      [("subject", some (.str subject)), ("entry_id", entry_id.map PValue.str)]
    body := none }

/-- Method `create_entry`: `POST /v1/index/<index_id>/entry` with a JSON body. -/
def create_entry (index_id : String) (data : JValue) : Request :=
  { verb := .POST
    path := qjoin_path ["v1/index", safe_stringify index_id, "entry"]
    params := []
    body := some data }

/-- Method `update_entry`: `PUT /v1/index/<index_id>/entry` with a JSON body. -/
def update_entry (index_id : String) (data : JValue) : Request :=
  { verb := .PUT
    path := qjoin_path ["v1/index", safe_stringify index_id, "entry"]
    params := []
    body := some data }

/-- Method `delete_entry`: `DELETE /v1/index/<index_id>/entry`; merges `subject`
and optional `entry_id`. -/
def delete_entry (index_id subject : String) (entry_id : Option String)
    (params : Params) : Request :=
  { verb := .DELETE
    path := qjoin_path ["v1/index", safe_stringify index_id, "entry"]
    params := merge_params params
      [("subject", some (.str subject)), ("entry_id", entry_id.map PValue.str)]
    body := none }

/-- Method `get_query_template`:
`GET /v1/index/<index_id>/query_template/<template_name>`, no params. -/
def get_query_template (index_id template_name : String) : Request :=
  { verb := .GET
    path := qjoin_path
      ["v1/index", safe_stringify index_id, "query_template", template_name]
    params := []
    body := none }

/-- Method `get_query_template_list`: `GET /v1/index/<index_id>/query_template`,
no params. -/
def get_query_template_list (index_id : String) : Request :=
  { verb := .GET
    path := qjoin_path ["v1/index", safe_stringify index_id, "query_template"]
    params := []
    body := none }

end SearchClient

/-- C1: every call to `get_subject` or `delete_subject` hands the transport
a parameter mapping in which `subject` is bound to the caller-supplied
subject value, obtained by merging it into the caller-supplied mapping. -/
theorem subject_param_always_transmitted (index_id subject : String) (ps : Params) :
    getParam (SearchClient.get_subject index_id subject ps).params "subject"
        = some (.str subject) ∧
    getParam (SearchClient.delete_subject index_id subject ps).params "subject"
        = some (.str subject) ∧
    (SearchClient.get_subject index_id subject ps).params
        = merge_params ps [("subject", some (.str subject))] ∧
    (SearchClient.delete_subject index_id subject ps).params
        = merge_params ps [("subject", some (.str subject))] :=
  ⟨getParam_setParam ps "subject" (.str subject),
   getParam_setParam ps "subject" (.str subject), rfl, rfl⟩

/-- C2: for `get_entry` and `delete_entry`, an unset (`None`) `entry_id`
leaves the transmitted mapping without an `entry_id` key, while a present
`entry_id` binds `entry_id` to exactly the caller-supplied value. -/
theorem entry_id_present_iff_set (index_id subject : String) (ps : Params)
    (h : hasKey ps "entry_id" = false) :
    hasKey (SearchClient.get_entry index_id subject none ps).params "entry_id" = false ∧
    hasKey (SearchClient.delete_entry index_id subject none ps).params "entry_id" = false ∧
    ∀ e : String,
      getParam (SearchClient.get_entry index_id subject (some e) ps).params "entry_id"
          = some (.str e) ∧
      getParam (SearchClient.delete_entry index_id subject (some e) ps).params "entry_id"
          = some (.str e) := by
  have habsent :
      hasKey (setParam ps "subject" (.str subject)) "entry_id" = false := by
    rw [hasKey_setParam_of_ne ps "subject" "entry_id" (.str subject) (by decide)]
    exact h
  exact ⟨habsent, habsent, fun e =>
    ⟨getParam_setParam (setParam ps "subject" (.str subject)) "entry_id" (.str e),
     getParam_setParam (setParam ps "subject" (.str subject)) "entry_id" (.str e)⟩⟩

/-- Witness for C2 at `index_id = "i"`, `subject = "s"`, empty caller
params, with `entry_id` both unset and set to `"e"`. -/
theorem entry_id_present_iff_set_witness :
    hasKey ([] : Params) "entry_id" = false ∧
    hasKey (SearchClient.get_entry "i" "s" none []).params "entry_id" = false ∧
    getParam (SearchClient.get_entry "i" "s" (some "e") []).params "entry_id"
        = some (.str "e") :=
  ⟨rfl, (entry_id_present_iff_set "i" "s" [] rfl).1,
   ((entry_id_present_iff_set "i" "s" [] rfl).2.2 "e").1⟩

/-- C6: `search` always transmits the `advanced` parameter; in particular a
call leaving it at its Python default transmits `advanced = false` rather
than omitting the key. -/
theorem advanced_always_transmitted (index_id q : String) (offset limit : Int)
    (query_template : Option String) (advanced : Bool) (ps : Params) :
    getParam (SearchClient.search index_id q offset limit query_template
        advanced ps).params "advanced" = some (.bool advanced) := by
  cases query_template <;>
    exact getParam_setParam _ "advanced" (.bool advanced)

/-- C10: `get_entry`/`delete_entry` build identical requests up to the HTTP
verb, and so do `get_subject`/`delete_subject`: same path, same parameter
mapping, no body, verbs `GET` versus `DELETE`. -/
theorem get_delete_requests_agree (index_id subject : String)
    (entry_id : Option String) (ps : Params) :
    ((SearchClient.get_entry index_id subject entry_id ps).path
        = (SearchClient.delete_entry index_id subject entry_id ps).path ∧
     (SearchClient.get_entry index_id subject entry_id ps).params
        = (SearchClient.delete_entry index_id subject entry_id ps).params ∧
     (SearchClient.get_entry index_id subject entry_id ps).verb = .GET ∧
     (SearchClient.delete_entry index_id subject entry_id ps).verb = .DELETE ∧
     (SearchClient.get_entry index_id subject entry_id ps).body = none ∧
     (SearchClient.delete_entry index_id subject entry_id ps).body = none) ∧
    ((SearchClient.get_subject index_id subject ps).path
        = (SearchClient.delete_subject index_id subject ps).path ∧
     (SearchClient.get_subject index_id subject ps).params
        = (SearchClient.delete_subject index_id subject ps).params ∧
     (SearchClient.get_subject index_id subject ps).verb = .GET ∧
     (SearchClient.delete_subject index_id subject ps).verb = .DELETE ∧
     (SearchClient.get_subject index_id subject ps).body = none ∧
     (SearchClient.delete_subject index_id subject ps).body = none) :=
  ⟨⟨rfl, rfl, rfl, rfl, rfl, rfl⟩, ⟨rfl, rfl, rfl, rfl, rfl, rfl⟩⟩

/-- C3: with `offset`/`limit` left at their Python defaults, `search`
transmits `offset = 0` and `limit = 10`; an unset `query_template` is
absent from the transmitted mapping; and the scenario
`search(index_id="abc-123", q="hello")` yields a `GET` request on
`/v1/index/abc-123/search` whose parameter set is exactly
`q="hello"`, `offset=0`, `limit=10`, `advanced=false`. -/
theorem search_defaults (index_id q : String) (ps : Params)
    (h : hasKey ps "query_template" = false) :
    getParam (SearchClient.search index_id q 0 10 none false ps).params "offset"
        = some (.int 0) ∧
    getParam (SearchClient.search index_id q 0 10 none false ps).params "limit"
        = some (.int 10) ∧
    hasKey (SearchClient.search index_id q 0 10 none false ps).params
        "query_template" = false ∧
    SearchClient.search "abc-123" "hello" 0 10 none false [] =
      { verb := .GET
        path := "/v1/index/abc-123/search"
        params := [("q", .str "hello"), ("offset", .int 0),
                   ("limit", .int 10), ("advanced", .bool false)]
        body := none } := by
  refine ⟨?_, ?_, ?_, ?_⟩
  · show getParam (setParam (setParam (setParam (setParam ps "q" (.str q))
      "offset" (.int 0)) "limit" (.int 10)) "advanced" (.bool false)) "offset"
      = some (.int 0)
    rw [getParam_setParam_of_ne _ "offset" "advanced" _ (by decide),
        getParam_setParam_of_ne _ "offset" "limit" _ (by decide)]
    exact getParam_setParam _ "offset" (.int 0)
  · show getParam (setParam (setParam (setParam (setParam ps "q" (.str q))
      "offset" (.int 0)) "limit" (.int 10)) "advanced" (.bool false)) "limit"
      = some (.int 10)
    rw [getParam_setParam_of_ne _ "limit" "advanced" _ (by decide)]
    exact getParam_setParam _ "limit" (.int 10)
  · show hasKey (setParam (setParam (setParam (setParam ps "q" (.str q))
      "offset" (.int 0)) "limit" (.int 10)) "advanced" (.bool false))
      "query_template" = false
    rw [hasKey_setParam_of_ne _ "advanced" "query_template" _ (by decide),
        hasKey_setParam_of_ne _ "limit" "query_template" _ (by decide),
        hasKey_setParam_of_ne _ "offset" "query_template" _ (by decide),
        hasKey_setParam_of_ne _ "q" "query_template" _ (by decide)]
    exact h
  · rfl

/-- Witness for C3 with empty caller params. -/
theorem search_defaults_witness :
    hasKey ([] : Params) "query_template" = false ∧
    getParam (SearchClient.search "i" "hello" 0 10 none false []).params "offset"
        = some (.int 0) :=
  ⟨rfl, (search_defaults "i" "hello" [] rfl).1⟩

/-!
Response handling and error translation, shared by all operations. The
transport collaborator, response wrapper and error translation live in
`globus_sdk.base` / `globus_sdk.response` / `globus_sdk.exc`, outside the
source tree, and are modelled from the specification.
-/

/-- The raw reply the HTTP transport collaborator returns: numeric status
and parsed JSON body. -/
structure HTTPResponse where
  status : Nat
  body : JValue

/-- The response wrapper (`GlobusHTTPResponse`): parsed JSON body plus the
HTTP status. -/
structure GlobusHTTPResponse where
  data : JValue
  http_status : Nat

/-- The typed exception (`error_class = exc.SearchAPIError`): status code,
optional machine error code, optional human-readable message. -/
structure SearchAPIError where
  http_status : Nat
  code : Option String
  message : Option String

/-- Field lookup in a JSON object; `none` on non-objects. -/
def jLookup : JValue → String → Option JValue
  | .obj fields, k => (fields.find? (fun f => f.1 == k)).map (·.2)
  | _, _ => none

/-- String-valued field lookup in a JSON object. -/
def jLookupStr (j : JValue) (k : String) : Option String :=
  match jLookup j k with
  | some (.str s) => some s
  | _ => none

/-- Whether an HTTP status is a success (2xx) status. -/
def is2xx (status : Nat) : Bool := 200 ≤ status && status < 300

/-- Modelled from the spec: the base client's response handling and error
translation (not in the source tree). A 2xx reply is wrapped into the
response class; a non-2xx reply raises the client's configured
`error_class` carrying the status code, the machine `code` and the
`message` extracted from the JSON error body. -/
def handleResponse (r : HTTPResponse) : Except SearchAPIError GlobusHTTPResponse :=
  if is2xx r.status then .ok ⟨r.body, r.status⟩
  else .error ⟨r.status, jLookupStr r.body "code", jLookupStr r.body "message"⟩

/-- The transport collaborator: maps a request to a raw HTTP reply. -/
abbrev Transport := Request → HTTPResponse

/-- Issue a request through the transport and translate the reply. -/
def performRequest (t : Transport) (req : Request) :
    Except SearchAPIError GlobusHTTPResponse :=
  handleResponse (t req)

/-- Operation `get_index` including response handling. -/
def get_index_call (t : Transport) (index_id : String) (ps : Params) :
    Except SearchAPIError GlobusHTTPResponse :=
  performRequest t (SearchClient.get_index index_id ps)

/-- Whether the operation returned normally. -/
def isOkResult : Except SearchAPIError GlobusHTTPResponse → Bool
  | .ok _ => true
  | .error _ => false

/-- C7: an operation returns normally (with a response wrapper) iff the
transport's status is 2xx; on a non-2xx status it raises the typed error
carrying that status and the `code`/`message` fields of the JSON error
body — stated for the shared pipeline and for `get_index`. -/
theorem api_error_translation (t : Transport) (index_id : String) (ps : Params) :
    (∀ req : Request, isOkResult (performRequest t req) = is2xx (t req).status) ∧
    (is2xx (t (SearchClient.get_index index_id ps)).status = true →
      get_index_call t index_id ps =
        .ok ⟨(t (SearchClient.get_index index_id ps)).body,
             (t (SearchClient.get_index index_id ps)).status⟩) ∧
    (is2xx (t (SearchClient.get_index index_id ps)).status = false →
      get_index_call t index_id ps =
        .error ⟨(t (SearchClient.get_index index_id ps)).status,
                jLookupStr (t (SearchClient.get_index index_id ps)).body "code",
                jLookupStr (t (SearchClient.get_index index_id ps)).body "message"⟩) := by
  refine ⟨fun req => ?_, fun h2 => ?_, fun h2 => ?_⟩
  · cases hs : is2xx (t req).status <;>
      simp [performRequest, handleResponse, hs, isOkResult]
  · simp [get_index_call, performRequest, handleResponse, h2]
  · simp [get_index_call, performRequest, handleResponse, h2]

/-- A stub transport answering every request with HTTP 404 and the error
body `{"code": "NotFound", "message": "no such index"}`. -/
def stub404 : Transport := fun _ =>
  ⟨404, .obj [("code", .str "NotFound"), ("message", .str "no such index")]⟩

/-- Witness for C7: against the 404 stub, `get_index` raises an error
exposing status 404, code `NotFound` and message `no such index`. -/
theorem api_error_translation_witness :
    is2xx (stub404 (SearchClient.get_index "abc" [])).status = false ∧
    get_index_call stub404 "abc" [] =
      .error ⟨404, some "NotFound", some "no such index"⟩ := by
  refine ⟨rfl, ?_⟩
  have h := (api_error_translation stub404 "abc" []).2.2 rfl
  simpa using h

/-!
Authorizer admission. `allowed_authorizer_types` is set in the source
(`search/client.py`); the admission check itself is part of the base
client's constructor, outside the source tree, and is modelled from the
specification.
-/

/-- The authorizer variants of `globus_sdk.authorizers` relevant to the
client: the three token-bearing variants named in the source plus the
basic-auth variant the spec says is disallowed. -/
inductive AuthorizerType where
  | AccessTokenAuthorizer
  | RefreshTokenAuthorizer
  | ClientCredentialsAuthorizer
  | BasicAuthorizer
  deriving DecidableEq, Repr

/-- From the source: `SearchClient.allowed_authorizer_types` — basic auth
is disallowed. -/
def allowed_authorizer_types : List AuthorizerType :=
  [.AccessTokenAuthorizer, .RefreshTokenAuthorizer, .ClientCredentialsAuthorizer]

/-- A constructed client instance: its authorizer and the remaining
constructor arguments (opaque to the admission check). -/
structure ClientInstance where
  authorizer : AuthorizerType
  kwargs : List (String × String)

/-- Modelled from the spec: the base-client constructor used by
`SearchClient.__init__` (not in the source tree) accepts an authorizer
exactly when its type is among `allowed_authorizer_types`, and rejects the
construction otherwise. -/
def initClient (auth : AuthorizerType) (kwargs : List (String × String)) :
    Option ClientInstance :=
  if auth ∈ allowed_authorizer_types then some ⟨auth, kwargs⟩ else none

/-- C8: constructing the client with a basic-auth authorizer is rejected
for every choice of the other constructor arguments, while every
token-bearing variant is accepted. -/
theorem basic_auth_rejected (kwargs : List (String × String)) :
    initClient .BasicAuthorizer kwargs = none ∧
    ∀ auth : AuthorizerType, auth ≠ .BasicAuthorizer →
      (initClient auth kwargs).isSome = true := by
  constructor
  · rfl
  · intro auth h
    cases auth
    · rfl
    · rfl
    · rfl
    · exact absurd rfl h

/-- Witness for C8 at concrete constructor arguments. -/
theorem basic_auth_rejected_witness :
    initClient .BasicAuthorizer [("base_url", "https://search.api.globus.org/")] = none ∧
    (AuthorizerType.AccessTokenAuthorizer ≠ .BasicAuthorizer ∧
     (initClient .AccessTokenAuthorizer
        [("base_url", "https://search.api.globus.org/")]).isSome = true) :=
  ⟨(basic_auth_rejected _).1,
   by decide,
   (basic_auth_rejected _).2 .AccessTokenAuthorizer (by decide)⟩

/-!
Path-segment analysis: splitting a constructed path at the separator
character, to state the spec's properties about path segments and double
separators.
-/

/-- Split a character list at `'/'`; adjacent separators yield empty
chunks. -/
def splitSep : List Char → List (List Char)
  | [] => [[]]
  | c :: cs =>
    if c = '/' then [] :: splitSep cs
    else
      match splitSep cs with
      | [] => [[c]]
      | s :: rest => (c :: s) :: rest

/-- The segments of a path that starts with the separator: the chunks of
its character list after the leading separator. -/
def pathSegments (s : String) : List String :=
  ((splitSep s.toList).map (fun l => String.mk l)).drop 1

theorem splitSep_cons_sep (cs : List Char) :
    splitSep ('/' :: cs) = [] :: splitSep cs := by
  simp [splitSep]

theorem splitSep_no_sep : ∀ l : List Char, (∀ c ∈ l, c ≠ '/') →
    splitSep l = [l]
  | [], _ => rfl
  | c :: cs, h => by
    have hc : c ≠ '/' := h c (by simp)
    have ih := splitSep_no_sep cs (fun x hx => h x (by simp [hx]))
    simp [splitSep, hc, ih]

theorem splitSep_append_sep : ∀ xs ys : List Char, (∀ c ∈ xs, c ≠ '/') →
    splitSep (xs ++ '/' :: ys) = xs :: splitSep ys
  | [], ys, _ => by simp [splitSep]
  | x :: xs, ys, h => by
    have hx : x ≠ '/' := h x (by simp)
    have ih := splitSep_append_sep xs ys (fun c hc => h c (by simp [hc]))
    simp [splitSep, hx, ih]

theorem splitSep_slashchunks : ∀ chunks : List (List Char),
    (∀ ch ∈ chunks, ∀ c ∈ ch, c ≠ '/') →
    splitSep ((chunks.map (fun ch => '/' :: ch)).flatten) = [] :: chunks
  | [], _ => rfl
  | ch :: rest, h => by
    have hch : ∀ c ∈ ch, c ≠ '/' := h ch (by simp)
    have ih := splitSep_slashchunks rest (fun ch' hch' => h ch' (by simp [hch']))
    cases rest with
    | nil =>
      simp only [List.map_cons, List.map_nil, List.flatten_cons,
        List.flatten_nil, List.append_nil]
      rw [splitSep_cons_sep, splitSep_no_sep ch hch]
    | cons ch2 rest' =>
      simp only [List.map_cons, List.flatten_cons, List.cons_append] at ih ⊢
      rw [splitSep_cons_sep] at ih
      injection ih with h1 h2
      rw [splitSep_cons_sep, splitSep_append_sep ch _ hch, h2]

theorem trimSepList_no_sep (l : List Char) (h : ∀ c ∈ l, c ≠ '/') :
    trimSepList l = l := by
  unfold trimSepList
  have h1 : l.dropWhile (fun c => c == '/') = l := by
    cases l with
    | nil => rfl
    | cons c cs =>
      rw [List.dropWhile_cons_of_neg]
      simpa using h c (by simp)
  rw [h1]
  have h2 : l.reverse.dropWhile (fun c => c == '/') = l.reverse := by
    cases hr : l.reverse with
    | nil => rfl
    | cons c cs =>
      rw [List.dropWhile_cons_of_neg]
      have : c ∈ l.reverse := by rw [hr]; simp
      simpa using h c (List.mem_reverse.mp this)
  rw [h2, List.reverse_reverse]

theorem trimSep_no_sep (s : String) (h : ∀ c ∈ s.toList, c ≠ '/') :
    trimSep s = s := by
  unfold trimSep
  rw [trimSepList_no_sep s.toList h]
  rfl

theorem qjoin_toList : ∀ (mids : List String) (acc : String),
    (List.foldl (fun acc p => acc ++ "/" ++ trimSep p) acc mids).toList =
      acc.toList ++ ((mids.map (fun m => '/' :: (trimSep m).toList)).flatten)
  | [], acc => by simp
  | m :: ms, acc => by
    rw [List.foldl_cons, qjoin_toList ms (acc ++ "/" ++ trimSep m)]
    show (acc ++ "/" ++ trimSep m).data ++ _ = acc.data ++ _
    simp [String.data_append]

/-- Segment shape of every path the client constructs: the fixed prefix
part `"v1/index"` followed by slash-free parts yields exactly the segments
`"v1"`, `"index"` and those parts. -/
theorem pathSegments_qjoin (mids : List String)
    (h : ∀ m ∈ mids, ∀ c ∈ m.toList, c ≠ '/') :
    pathSegments (qjoin_path ("v1/index" :: mids)) = "v1" :: "index" :: mids := by
  unfold qjoin_path pathSegments
  rw [List.foldl_cons, qjoin_toList mids ("" ++ "/" ++ trimSep "v1/index")]
  have hmids : mids.map (fun m => '/' :: (trimSep m).toList)
      = mids.map (fun m => '/' :: m.toList) := by
    apply List.map_congr_left
    intro m hm
    rw [trimSep_no_sep m (h m hm)]
  rw [hmids]
  have hbase : ("" ++ "/" ++ trimSep "v1/index").toList
        ++ (mids.map (fun m => '/' :: m.toList)).flatten
      = ((("v1".toList :: "index".toList :: mids.map String.toList)).map
          (fun ch => '/' :: ch)).flatten := by
    simp only [List.map_cons, List.flatten_cons, List.map_map]
    rfl
  rw [hbase, splitSep_slashchunks]
  · simp only [List.map_cons, List.drop_succ_cons, List.drop_zero, List.map_map]
    have hmk : mids.map ((fun l => String.mk l) ∘ String.toList) = mids := by
      conv_rhs => rw [← List.map_id mids]
      exact List.map_congr_left (fun m _ => rfl)
    rw [hmk]
    rfl
  · intro ch hch
    simp only [List.mem_cons] at hch
    rcases hch with rfl | rfl | hm
    · decide
    · decide
    · simp only [List.mem_map] at hm
      obtain ⟨m, hm, rfl⟩ := hm
      exact h m hm

/-- C4: every public operation issues exactly the HTTP verb and path
template of the spec's operation table; in particular `update_entry` issues
`PUT` on `/v1/index/{id}/entry` with the entry document as JSON body, and
`get_query_template` issues `GET` on
`/v1/index/{id}/query_template/{name}` with no query parameters and no
body. Stated for identifiers and template names unchanged by separator
trimming. -/
theorem operation_table (index_id template_name q subject : String)
    (offset limit : Int) (query_template : Option String) (advanced : Bool)
    (entry_id : Option String) (ps : Params) (data : JValue)
    (hid : trimSep index_id = index_id)
    (htn : trimSep template_name = template_name) :
    ((SearchClient.get_index index_id ps).verb = .GET ∧
     (SearchClient.get_index index_id ps).path = "/v1/index/" ++ index_id) ∧
    ((SearchClient.search index_id q offset limit query_template advanced ps).verb = .GET ∧
     (SearchClient.search index_id q offset limit query_template advanced ps).path
        = "/v1/index/" ++ index_id ++ "/search") ∧
    ((SearchClient.post_search index_id data).verb = .POST ∧
     (SearchClient.post_search index_id data).path
        = "/v1/index/" ++ index_id ++ "/search") ∧
    ((SearchClient.ingest index_id data).verb = .POST ∧
     (SearchClient.ingest index_id data).path
        = "/v1/index/" ++ index_id ++ "/ingest") ∧
    ((SearchClient.delete_by_query index_id data).verb = .POST ∧
     (SearchClient.delete_by_query index_id data).path
        = "/v1/index/" ++ index_id ++ "/delete_by_query") ∧
    ((SearchClient.get_subject index_id subject ps).verb = .GET ∧
     (SearchClient.get_subject index_id subject ps).path
        = "/v1/index/" ++ index_id ++ "/subject") ∧
    ((SearchClient.delete_subject index_id subject ps).verb = .DELETE ∧
     (SearchClient.delete_subject index_id subject ps).path
        = "/v1/index/" ++ index_id ++ "/subject") ∧
    ((SearchClient.get_entry index_id subject entry_id ps).verb = .GET ∧
     (SearchClient.get_entry index_id subject entry_id ps).path
        = "/v1/index/" ++ index_id ++ "/entry") ∧
    ((SearchClient.create_entry index_id data).verb = .POST ∧
     (SearchClient.create_entry index_id data).path
        = "/v1/index/" ++ index_id ++ "/entry" ∧
     (SearchClient.create_entry index_id data).body = some data) ∧
    ((SearchClient.update_entry index_id data).verb = .PUT ∧
     (SearchClient.update_entry index_id data).path
        = "/v1/index/" ++ index_id ++ "/entry" ∧
     (SearchClient.update_entry index_id data).body = some data) ∧
    ((SearchClient.delete_entry index_id subject entry_id ps).verb = .DELETE ∧
     (SearchClient.delete_entry index_id subject entry_id ps).path
        = "/v1/index/" ++ index_id ++ "/entry") ∧
    ((SearchClient.get_query_template index_id template_name).verb = .GET ∧
     (SearchClient.get_query_template index_id template_name).path
        = "/v1/index/" ++ index_id ++ "/query_template/" ++ template_name ∧
     (SearchClient.get_query_template index_id template_name).params = [] ∧
     (SearchClient.get_query_template index_id template_name).body = none) ∧
    ((SearchClient.get_query_template_list index_id).verb = .GET ∧
     (SearchClient.get_query_template_list index_id).path
        = "/v1/index/" ++ index_id ++ "/query_template") := by
  refine ⟨⟨rfl, ?_⟩, ⟨rfl, ?_⟩, ⟨rfl, ?_⟩, ⟨rfl, ?_⟩, ⟨rfl, ?_⟩, ⟨rfl, ?_⟩,
    ⟨rfl, ?_⟩, ⟨rfl, ?_⟩, ⟨rfl, ?_, rfl⟩, ⟨rfl, ?_, rfl⟩, ⟨rfl, ?_⟩,
    ⟨rfl, ?_, rfl, rfl⟩, ⟨rfl, ?_⟩⟩
  all_goals
    simp only [SearchClient.get_index, SearchClient.search,
      SearchClient.post_search, SearchClient.ingest,
      SearchClient.delete_by_query, SearchClient.get_subject,
      SearchClient.delete_subject, SearchClient.get_entry,
      SearchClient.create_entry, SearchClient.update_entry,
      SearchClient.delete_entry, SearchClient.get_query_template,
      SearchClient.get_query_template_list, safe_stringify, qjoin_path,
      List.foldl_cons, List.foldl_nil, hid, htn, String.append_assoc]
  all_goals rfl

/-- Witness for C4 at `index_id = "abc-123"`, `template_name = "tmpl"`. -/
theorem operation_table_witness :
    trimSep "abc-123" = "abc-123" ∧
    (SearchClient.update_entry "abc-123" .null).verb = .PUT ∧
    (SearchClient.update_entry "abc-123" .null).path = "/v1/index/abc-123/entry" ∧
    (SearchClient.get_query_template "abc-123" "tmpl").path
      = "/v1/index/abc-123/query_template/tmpl" := by
  have h := operation_table "abc-123" "tmpl" "q" "s" 0 10 none false none []
    .null rfl rfl
  exact ⟨rfl, h.2.2.2.2.2.2.2.2.2.1.1, h.2.2.2.2.2.2.2.2.2.1.2.1,
    h.2.2.2.2.2.2.2.2.2.2.2.1.2.1⟩

/-- C5 counterexample: the claim quantifies over every identifier value,
but the empty identifier makes `search` construct a path with a double
separator, and the identifier `"search"` yields two path segments equal to
the identifier. -/
theorem index_id_single_segment_counterexample :
    "" ∈ pathSegments (SearchClient.search "" "q" 0 10 none false []).path ∧
    (pathSegments (SearchClient.search "search" "q" 0 10 none false []).path).count
      "search" = 2 := by
  constructor
  · decide
  · decide

/-- C5 (amended): for every operation taking an index identifier, and every
identifier that is nonempty, separator-free and distinct from the fixed
path segments (with the template name of `get_query_template` likewise
well formed and distinct from the identifier), the constructed path
contains exactly one segment equal to the identifier's string form and no
empty segment (no double separators). -/
theorem index_id_single_segment (index_id template_name q subject : String)
    (offset limit : Int) (query_template : Option String) (advanced : Bool)
    (entry_id : Option String) (ps : Params) (data : JValue)
    (hsep : ∀ c ∈ index_id.toList, c ≠ '/')
    (hempty : index_id ≠ "")
    (hfixed : index_id ∉ (["v1", "index", "search", "ingest",
      "delete_by_query", "subject", "entry", "query_template"] : List String))
    (tsep : ∀ c ∈ template_name.toList, c ≠ '/')
    (tempty : template_name ≠ "")
    (tne : template_name ≠ index_id) :
    ∀ p ∈ [(SearchClient.get_index index_id ps).path,
           (SearchClient.search index_id q offset limit query_template advanced ps).path,
           (SearchClient.post_search index_id data).path,
           (SearchClient.ingest index_id data).path,
           (SearchClient.delete_by_query index_id data).path,
           (SearchClient.get_subject index_id subject ps).path,
           (SearchClient.delete_subject index_id subject ps).path,
           (SearchClient.get_entry index_id subject entry_id ps).path,
           (SearchClient.create_entry index_id data).path,
           (SearchClient.update_entry index_id data).path,
           (SearchClient.delete_entry index_id subject entry_id ps).path,
           (SearchClient.get_query_template index_id template_name).path,
           (SearchClient.get_query_template_list index_id).path],
      (pathSegments p).count index_id = 1 ∧ "" ∉ pathSegments p := by
  simp only [List.mem_cons, not_or] at hfixed
  obtain ⟨hv1, hix, hsearch, hingest, hdbq, hsubj, hentry, hqt, -⟩ := hfixed
  have hone : ∀ m ∈ [index_id], ∀ c ∈ m.toList, c ≠ '/' := by
    intro m hm
    simp only [List.mem_cons, List.not_mem_nil, or_false] at hm
    subst hm
    exact hsep
  have hpair : ∀ s : String, (∀ c ∈ s.toList, c ≠ '/') →
      ∀ m ∈ [index_id, s], ∀ c ∈ m.toList, c ≠ '/' := by
    intro s hs m hm
    simp only [List.mem_cons, List.not_mem_nil, or_false] at hm
    rcases hm with rfl | rfl
    · exact hsep
    · exact hs
  have htriple : ∀ m ∈ [index_id, "query_template", template_name],
      ∀ c ∈ m.toList, c ≠ '/' := by
    intro m hm
    simp only [List.mem_cons, List.not_mem_nil, or_false] at hm
    rcases hm with rfl | rfl | rfl
    · exact hsep
    · decide
    · exact tsep
  intro p hp
  simp only [List.mem_cons, List.not_mem_nil, or_false] at hp
  rcases hp with rfl | rfl | rfl | rfl | rfl | rfl | rfl | rfl | rfl | rfl |
    rfl | rfl | rfl
  · show (pathSegments (qjoin_path ["v1/index", index_id])).count index_id = 1 ∧
      "" ∉ pathSegments (qjoin_path ["v1/index", index_id])
    rw [show ("v1/index" :: [index_id] : List String)
          = "v1/index" :: [index_id] from rfl,
        pathSegments_qjoin [index_id] hone]
    refine ⟨?_, ?_⟩
    · simp [List.count_cons, hv1, hix]
    · simp [Ne.symm hempty]
  · show (pathSegments (qjoin_path ["v1/index", index_id, "search"])).count
        index_id = 1 ∧
      "" ∉ pathSegments (qjoin_path ["v1/index", index_id, "search"])
    rw [pathSegments_qjoin [index_id, "search"] (hpair "search" (by decide))]
    refine ⟨?_, ?_⟩
    · simp [List.count_cons, hv1, hix, hsearch]
    · simp [Ne.symm hempty]
  · show (pathSegments (qjoin_path ["v1/index", index_id, "search"])).count
        index_id = 1 ∧
      "" ∉ pathSegments (qjoin_path ["v1/index", index_id, "search"])
    rw [pathSegments_qjoin [index_id, "search"] (hpair "search" (by decide))]
    refine ⟨?_, ?_⟩
    · simp [List.count_cons, hv1, hix, hsearch]
    · simp [Ne.symm hempty]
  · show (pathSegments (qjoin_path ["v1/index", index_id, "ingest"])).count
        index_id = 1 ∧
      "" ∉ pathSegments (qjoin_path ["v1/index", index_id, "ingest"])
    rw [pathSegments_qjoin [index_id, "ingest"] (hpair "ingest" (by decide))]
    refine ⟨?_, ?_⟩
    · simp [List.count_cons, hv1, hix, hingest]
    · simp [Ne.symm hempty]
  · show (pathSegments (qjoin_path ["v1/index", index_id, "delete_by_query"])).count
        index_id = 1 ∧
      "" ∉ pathSegments (qjoin_path ["v1/index", index_id, "delete_by_query"])
    rw [pathSegments_qjoin [index_id, "delete_by_query"]
      (hpair "delete_by_query" (by decide))]
    refine ⟨?_, ?_⟩
    · simp [List.count_cons, hv1, hix, hdbq]
    · simp [Ne.symm hempty]
  · show (pathSegments (qjoin_path ["v1/index", index_id, "subject"])).count
        index_id = 1 ∧
      "" ∉ pathSegments (qjoin_path ["v1/index", index_id, "subject"])
    rw [pathSegments_qjoin [index_id, "subject"] (hpair "subject" (by decide))]
    refine ⟨?_, ?_⟩
    · simp [List.count_cons, hv1, hix, hsubj]
    · simp [Ne.symm hempty]
  · show (pathSegments (qjoin_path ["v1/index", index_id, "subject"])).count
        index_id = 1 ∧
      "" ∉ pathSegments (qjoin_path ["v1/index", index_id, "subject"])
    rw [pathSegments_qjoin [index_id, "subject"] (hpair "subject" (by decide))]
    refine ⟨?_, ?_⟩
    · simp [List.count_cons, hv1, hix, hsubj]
    · simp [Ne.symm hempty]
  · show (pathSegments (qjoin_path ["v1/index", index_id, "entry"])).count
        index_id = 1 ∧
      "" ∉ pathSegments (qjoin_path ["v1/index", index_id, "entry"])
    rw [pathSegments_qjoin [index_id, "entry"] (hpair "entry" (by decide))]
    refine ⟨?_, ?_⟩
    · simp [List.count_cons, hv1, hix, hentry]
    · simp [Ne.symm hempty]
  · show (pathSegments (qjoin_path ["v1/index", index_id, "entry"])).count
        index_id = 1 ∧
      "" ∉ pathSegments (qjoin_path ["v1/index", index_id, "entry"])
    rw [pathSegments_qjoin [index_id, "entry"] (hpair "entry" (by decide))]
    refine ⟨?_, ?_⟩
    · simp [List.count_cons, hv1, hix, hentry]
    · simp [Ne.symm hempty]
  · show (pathSegments (qjoin_path ["v1/index", index_id, "entry"])).count
        index_id = 1 ∧
      "" ∉ pathSegments (qjoin_path ["v1/index", index_id, "entry"])
    rw [pathSegments_qjoin [index_id, "entry"] (hpair "entry" (by decide))]
    refine ⟨?_, ?_⟩
    · simp [List.count_cons, hv1, hix, hentry]
    · simp [Ne.symm hempty]
  · show (pathSegments (qjoin_path ["v1/index", index_id, "entry"])).count
        index_id = 1 ∧
      "" ∉ pathSegments (qjoin_path ["v1/index", index_id, "entry"])
    rw [pathSegments_qjoin [index_id, "entry"] (hpair "entry" (by decide))]
    refine ⟨?_, ?_⟩
    · simp [List.count_cons, hv1, hix, hentry]
    · simp [Ne.symm hempty]
  · show (pathSegments (qjoin_path
        ["v1/index", index_id, "query_template", template_name])).count
        index_id = 1 ∧
      "" ∉ pathSegments (qjoin_path
        ["v1/index", index_id, "query_template", template_name])
    rw [pathSegments_qjoin [index_id, "query_template", template_name] htriple]
    refine ⟨?_, ?_⟩
    · simp [List.count_cons, hv1, hix, hqt, Ne.symm tne]
    · simp [Ne.symm hempty, Ne.symm tempty]
  · show (pathSegments (qjoin_path ["v1/index", index_id, "query_template"])).count
        index_id = 1 ∧
      "" ∉ pathSegments (qjoin_path ["v1/index", index_id, "query_template"])
    rw [pathSegments_qjoin [index_id, "query_template"]
      (hpair "query_template" (by decide))]
    refine ⟨?_, ?_⟩
    · simp [List.count_cons, hv1, hix, hqt]
    · simp [Ne.symm hempty]

/-!
Stub transport for the round-trip contract with the remote service
(create an entry, then fetch it back).
-/

/-- An entry's storage key at the service: index identifier, subject, and
optional entry sub-identifier. -/
abbrev StoreKey := String × String × Option String

/-- The stub service's storage: entry documents by key, newest first. -/
abbrev Store := List (StoreKey × JValue)

/-- Newest stored document under a key. -/
def lookupStore : Store → StoreKey → Option JValue
  | [], _ => none
  | e :: rest, k => if e.1 = k then some e.2 else lookupStore rest k

/-- Modelled from the spec: a stub transport implementing the service's
storage contract for entries, as used to verify the round-trip property in
tests. `POST /v1/index/{id}/entry` stores the body document under the key
formed from the path's index identifier and the document's `subject` and
optional `id` fields; `GET /v1/index/{id}/entry` returns the document
stored under the key formed from the path's index identifier and the
`subject`/`entry_id` query parameters. -/
def stubTransportStep (store : Store) (req : Request) : Store × HTTPResponse :=
  match req.verb, pathSegments req.path with
  | .POST, [s1, s2, idx, s4] =>
    if s1 = "v1" ∧ s2 = "index" ∧ s4 = "entry" then
      match req.body with
      | some doc =>
        let key : StoreKey :=
          (idx, (jLookupStr doc "subject").getD "", jLookupStr doc "id")
        ((key, doc) :: store, ⟨200, doc⟩)
      | none => (store, ⟨400, .null⟩)
    else (store, ⟨404, .null⟩)
  | .GET, [s1, s2, idx, s4] =>
    if s1 = "v1" ∧ s2 = "index" ∧ s4 = "entry" then
      let subject := match getParam req.params "subject" with
        | some (.str s) => s
        | _ => ""
      let entry_id := match getParam req.params "entry_id" with
        | some (.str s) => some s
        | _ => none
      match lookupStore store (idx, subject, entry_id) with
      | some doc => (store, ⟨200, doc⟩)
      | none =>
        (store, ⟨404, .obj [("code", .str "NotFound"),
                            ("message", .str "no such entry")]⟩)
    else (store, ⟨404, .null⟩)
  | _, _ => (store, ⟨404, .null⟩)

/-- An entry document as submitted to `create_entry`: `subject`, optional
`id` (the entry sub-identifier), visibility and `content`. -/
def mkEntryDoc (subject : String) (entry_id : Option String)
    (content : JValue) : JValue :=
  .obj ([("subject", .str subject)] ++
        (match entry_id with
         | some e => [("id", .str e)]
         | none => []) ++
        [("visible_to", .arr [.str "public"]), ("content", content)])

/-- C9: against the stub transport, `create_entry` followed by `get_entry`
with the same index identifier, subject and entry_id returns a body whose
`subject` and `content` fields equal those submitted. Stated for
separator-free index identifiers, for which the stub can parse the path. -/
theorem create_then_get_entry_roundtrip (index_id subject : String)
    (entry_id : Option String) (content : JValue)
    (hsep : ∀ c ∈ index_id.toList, c ≠ '/') :
    let doc := mkEntryDoc subject entry_id content
    let st1 := (stubTransportStep [] (SearchClient.create_entry index_id doc)).1
    let reply := (stubTransportStep st1
      (SearchClient.get_entry index_id subject entry_id [])).2
    reply.status = 200 ∧
    jLookup reply.body "subject" = some (.str subject) ∧
    jLookup reply.body "content" = some content := by
  intro doc st1 reply
  have hpath : pathSegments (qjoin_path ["v1/index", index_id, "entry"])
      = ["v1", "index", index_id, "entry"] := by
    apply pathSegments_qjoin [index_id, "entry"]
    intro m hm
    simp only [List.mem_cons, List.not_mem_nil, or_false] at hm
    rcases hm with rfl | rfl
    · exact hsep
    · decide
  cases entry_id with
  | none =>
    simp [reply, st1, doc, stubTransportStep, SearchClient.create_entry,
      SearchClient.get_entry, safe_stringify, hpath, mkEntryDoc, jLookup,
      jLookupStr, getParam, merge_params, setParam, hasKey, lookupStore]
  | some e =>
    simp [reply, st1, doc, stubTransportStep, SearchClient.create_entry,
      SearchClient.get_entry, safe_stringify, hpath, mkEntryDoc, jLookup,
      jLookupStr, getParam, merge_params, setParam, hasKey, lookupStore]

/-- Witness for C9 at a concrete index, subject, entry id and content. -/
theorem create_then_get_entry_roundtrip_witness :
    (∀ c ∈ "abc-123".toList, c ≠ '/') ∧
    jLookup ((stubTransportStep
        (stubTransportStep [] (SearchClient.create_entry "abc-123"
          (mkEntryDoc "https://example.com/foo" (some "foo/bar")
            (.str "some val")))).1
        (SearchClient.get_entry "abc-123" "https://example.com/foo"
          (some "foo/bar") [])).2.body) "subject"
      = some (.str "https://example.com/foo") :=
  ⟨by decide,
   (create_then_get_entry_roundtrip "abc-123" "https://example.com/foo"
      (some "foo/bar") (.str "some val") (by decide)).2.1⟩

/-- Witness for C5 (amended) at `index_id = "abc-123"`. -/
theorem index_id_single_segment_witness :
    (pathSegments (SearchClient.get_index "abc-123" []).path).count "abc-123" = 1 ∧
    "" ∉ pathSegments (SearchClient.get_index "abc-123" []).path := by
  have h := index_id_single_segment "abc-123" "tmpl" "q" "s" 0 10 none false
    none [] .null (by decide) (by decide) (by decide) (by decide) (by decide)
    (by decide)
  exact h _ (by simp)

end GlobusSearch
